import Mathlib

/-!
Shallow embedding of the token-ledger / payment-reconciliation core of the
Ai-mage backend (Express + Mongoose application).

Conventions of the embedding:
* A Mongo collection is a `List` of documents; `findById` / `findOne` are
  `List.find?` with the query predicate of the source; `doc.save()` after an
  in-memory mutation is modelled by replacing every stored document carrying
  the same `_id` (`saveUser` / `savePayment`), and creating a new document is
  an append.
* JavaScript numbers holding token counts are modelled as `Int` (token counts
  are integral throughout the source: schema `tokens` fields are integer
  counts); prices are modelled as `Rat` since the price arithmetic
  (`price * (1 - discountPercentage / 100)`, `Math.round(finalPrice * 100)`)
  is the object of a claim.  `Math.round` rounds half toward positive
  infinity, which `jsRound` reproduces.
* External effects (Stripe, signature verification) enter as explicit
  parameters: the verified status of a retrieved payment intent, whether the
  webhook signature check succeeded, the id Stripe assigns to a new intent.
* Each route handler is a pure function from the request data and the
  database state to a response value and the new database state.
-/

namespace Aimage

/-- JavaScript's `Math.round`: round half toward positive infinity. -/
def jsRound (q : ℚ) : ℤ := ⌊q + 1/2⌋

/-- `User` document: only the fields the claims touch (`_id`, the denormalized
`tokens` balance; schema default for `tokens` is `0`). -/
structure UserDoc where
  id : Nat
  tokens : Int
deriving DecidableEq

/-- `Payment.status` enum of the Payment model:
`{pending, succeeded, failed, cancelled, disputed}`. -/
inductive PaymentStatus
  | pending
  | succeeded
  | failed
  | cancelled
  | disputed
deriving DecidableEq

/-- `Payment` document as created by `POST /payments/create-payment-intent`. -/
structure PaymentDoc where
  id : Nat
  user : Nat
  packageId : Option Nat
  stripePaymentIntentId : String
  amount : Int
  tokens : Int
  status : PaymentStatus
deriving DecidableEq

/-- `Token` ledger document.  Request-metadata fields that never influence a
balance or a ledger sum (`aiProvider`, `sessionId`, `ipAddress`, ...) are
elided; `category` is `none` when the creating code passes no category (the
webhook handler). -/
structure TokenDoc where
  user : Nat
  type : String
  amount : Int
  description : String
  category : Option String
  paymentId : Option Nat
  packageId : Option Nat
deriving DecidableEq

/-- `TokenPackage` document (fields used by payment-intent creation).
The schema declares `discountPercentage` with `min: 0, max: 100`,
`maxPurchases` default `null` (= unlimited), `expiresAt` default `null`. -/
structure TokenPackageDoc where
  id : Nat
  tokens : Int
  bonusTokens : Int
  price : ℚ
  discountPercentage : ℚ
  currency : String
  isActive : Bool
  maxPurchases : Option Nat
  expiresAt : Option Int
deriving DecidableEq

/-- The document store: one list per collection. -/
structure DB where
  users : List UserDoc
  payments : List PaymentDoc
  tokens : List TokenDoc
  packages : List TokenPackageDoc
deriving DecidableEq

/-- `User.findById` -/
def findUserById (db : DB) (uid : Nat) : Option UserDoc :=
  db.users.find? (fun u => u.id == uid)

/-- `user.save()` after mutating the in-memory document: every stored document
with the same `_id` now reads back as the saved value. -/
def saveUser (db : DB) (u : UserDoc) : DB :=
  { db with users := db.users.map (fun v => if v.id == u.id then u else v) }

/-- `payment.save()` for an existing document. -/
def savePayment (db : DB) (p : PaymentDoc) : DB :=
  { db with payments := db.payments.map (fun q => if q.id == p.id then p else q) }

/-- `new Token({...}); await tokenTransaction.save()`: append-only insert. -/
def appendToken (db : DB) (t : TokenDoc) : DB :=
  { db with tokens := db.tokens ++ [t] }

/-- Sum of the `amount` fields of one user's `Token` ledger entries. -/
def ledgerSum (db : DB) (uid : Nat) : Int :=
  ((db.tokens.filter (fun t => t.user == uid)).map TokenDoc.amount).sum

/-! ## `POST /tokens/spend` and `POST /tokens/add` (src/backend/routes/tokens.js) -/

inductive SpendResult
  | invalidAmount          -- 400 'Invalid amount'
  | missingDescription     -- 400 'Description is required'
  | serverError            -- 500 (user document missing: `user.tokens` throws)
  | insufficientTokens     -- 400 'Insufficient tokens'
  | ok (newBalance : Int)  -- 200, body carries `newBalance`
deriving DecidableEq

/-- The negative ledger entry written by a successful spend
(`amount: -amount`, `type: 'spend'`, default category `'ai_generation'`). -/
def mkSpendEntry (uid : Nat) (amount : Int) (description : String) : TokenDoc :=
  { user := uid, type := "spend", amount := -amount, description := description,
    category := some "ai_generation", paymentId := none, packageId := none }

/-- `router.post('/spend')`: validates `amount > 0` (`!amount || amount <= 0`)
and a non-falsy `description`, checks `user.tokens < amount`, then debits the
cached balance and appends the negative ledger entry
(`Promise.all([tokenTransaction.save(), user.save()])`). -/
def spendTokens (db : DB) (uid : Nat) (amount : Int) (description : String) :
    SpendResult × DB :=
  if amount ≤ 0 then (SpendResult.invalidAmount, db)
  else if description = "" then (SpendResult.missingDescription, db)
  else
    match findUserById db uid with
    | none => (SpendResult.serverError, db)
    | some user =>
      if user.tokens < amount then (SpendResult.insufficientTokens, db)
      else
        (SpendResult.ok (user.tokens - amount),
          saveUser (appendToken db (mkSpendEntry uid amount description))
            { user with tokens := user.tokens - amount })

inductive AddResult
  | invalidAmount
  | missingDescription
  | serverError
  | ok (newBalance : Int)
deriving DecidableEq

/-- The positive ledger entry written by `POST /tokens/add`
(default `type: 'bonus'`, default category `'admin_bonus'`). -/
def mkAddEntry (uid : Nat) (amount : Int) (description : String) : TokenDoc :=
  { user := uid, type := "bonus", amount := amount, description := description,
    category := some "admin_bonus", paymentId := none, packageId := none }

/-- `router.post('/add')`: validates `amount > 0` and a description, credits
the cached balance and appends a positive ledger entry. -/
def addTokens (db : DB) (uid : Nat) (amount : Int) (description : String) :
    AddResult × DB :=
  if amount ≤ 0 then (AddResult.invalidAmount, db)
  else if description = "" then (AddResult.missingDescription, db)
  else
    match findUserById db uid with
    | none => (AddResult.serverError, db)
    | some user =>
      (AddResult.ok (user.tokens + amount),
        saveUser (appendToken db (mkAddEntry uid amount description))
          { user with tokens := user.tokens + amount })

/-- The intended ledger invariant: the user's denormalized balance equals the
sum of that user's ledger amounts (vacuously true when the user record is
absent). -/
def balanceMatchesLedger (db : DB) (uid : Nat) : Bool :=
  match findUserById db uid with
  | none => true
  | some u => u.tokens == ledgerSum db uid

/-- One sequential spend-or-add request against a fixed user. -/
inductive TokenOp
  | spend (amount : Int) (description : String)
  | add (amount : Int) (description : String)
deriving DecidableEq

/-- The state change of one request (the HTTP response is discarded). -/
def applyOp (db : DB) (uid : Nat) : TokenOp → DB
  | TokenOp.spend a d => (spendTokens db uid a d).2
  | TokenOp.add a d => (addTokens db uid a d).2

/-- Run a sequence of spend/add requests with no concurrent interleaving. -/
def runOps (db : DB) (uid : Nat) (ops : List TokenOp) : DB :=
  ops.foldl (fun s op => applyOp s uid op) db

/-! ## `POST /payments/create-payment-intent` (src/backend/routes/payments.js) -/

/-- One call to `stripe.paymentIntents.create` (the data the route sends). -/
structure ProcessorCall where
  amount : Int
  currency : String
deriving DecidableEq

inductive CreateIntentResult
  | notConfigured         -- 503 'Payment service is not configured'
  | invalidPackage        -- 400 'Invalid or inactive package selected'
  | packageExpired        -- 400 'Package has expired'
  | purchaseLimitReached  -- 400 'Purchase limit reached for this package'
  | ok (paymentDocId : Nat)
deriving DecidableEq

/-- `Payment.countDocuments({user, packageId, status: 'succeeded'})`. -/
def countSucceededPurchases (db : DB) (uid : Nat) (pkgId : Nat) : Nat :=
  (db.payments.filter (fun p =>
    p.user == uid && p.packageId == some pkgId
      && decide (p.status = PaymentStatus.succeeded))).length

/-- `router.post('/create-payment-intent')`.
Inputs beyond the request: `stripeConfigured` (the `STRIPE_SECRET_KEY` guard),
`now` (`new Date()`), `newIntentId` (the id Stripe returns for the created
intent) and `newPaymentDocId` (the `_id` Mongo assigns to the new Payment).
Output: the HTTP outcome, the new store, and the list of calls made to the
payment processor. -/
def createPaymentIntent (stripeConfigured : Bool) (now : Int) (newIntentId : String)
    (newPaymentDocId : Nat) (db : DB) (uid : Nat) (packageId : Nat) :
    CreateIntentResult × DB × List ProcessorCall :=
  if ¬ stripeConfigured then (CreateIntentResult.notConfigured, db, [])
  else
    match db.packages.find? (fun p => p.id == packageId) with
    | none => (CreateIntentResult.invalidPackage, db, [])
    | some pkg =>
      if ¬ pkg.isActive then (CreateIntentResult.invalidPackage, db, [])
      else if (match pkg.expiresAt with
               | some t => decide (now > t)
               | none => false) then
        (CreateIntentResult.packageExpired, db, [])
      -- `if (package.maxPurchases)`: a JS truthiness test, so a limit of 0
      -- (like the schema default `null`) disables the check.
      else if (match pkg.maxPurchases with
               | some m => m != 0 && countSucceededPurchases db uid pkg.id ≥ m
               | none => false) then
        (CreateIntentResult.purchaseLimitReached, db, [])
      else
        (CreateIntentResult.ok newPaymentDocId,
          { db with payments := db.payments ++
             [{ id := newPaymentDocId, user := uid, packageId := some pkg.id,
                stripePaymentIntentId := newIntentId,
                amount := jsRound ((if pkg.discountPercentage > 0 then
                      pkg.price * (1 - pkg.discountPercentage / 100)
                    else pkg.price) * 100),
                tokens := pkg.tokens + pkg.bonusTokens,
                status := PaymentStatus.pending }] },
          [{ amount := jsRound ((if pkg.discountPercentage > 0 then
                  pkg.price * (1 - pkg.discountPercentage / 100)
                else pkg.price) * 100),
             currency := pkg.currency.toLower }])

/-! ## `POST /payments/confirm` (src/backend/routes/payments.js) -/

inductive ConfirmResult
  | notConfigured     -- 503 'Payment service is not configured'
  | notCompleted      -- 400 'Payment not completed'
  | notFound          -- 404 'Payment not found'
  | alreadyProcessed  -- 400 'Payment already processed'
  | serverError       -- 500 (user document missing after the payment save)
  | ok (tokens newBalance : Int)
deriving DecidableEq

/-- `Payment.findOne({stripePaymentIntentId, user})`. -/
def findPaymentForUser (db : DB) (pid : String) (uid : Nat) : Option PaymentDoc :=
  db.payments.find? (fun p => p.stripePaymentIntentId == pid && p.user == uid)

/-- The `purchase` ledger entry written by a successful confirmation. -/
def mkConfirmEntry (uid : Nat) (p : PaymentDoc) : TokenDoc :=
  { user := uid, type := "purchase", amount := p.tokens,
    description := "Purchased " ++ toString p.tokens ++ " tokens",
    category := some "purchase", paymentId := some p.id, packageId := p.packageId }

/-- `router.post('/confirm')`.  `intentStatus` is the status Stripe reports
when the route re-fetches the payment intent.  On the first confirmation the
route performs three separate writes in order: payment save, user save,
ledger insert. -/
def confirmPayment (stripeConfigured : Bool) (intentStatus : String) (db : DB)
    (uid : Nat) (paymentIntentId : String) : ConfirmResult × DB :=
  if ¬ stripeConfigured then (ConfirmResult.notConfigured, db)
  else if intentStatus ≠ "succeeded" then (ConfirmResult.notCompleted, db)
  else
    match findPaymentForUser db paymentIntentId uid with
    | none => (ConfirmResult.notFound, db)
    | some payment =>
      if payment.status = PaymentStatus.succeeded then
        (ConfirmResult.alreadyProcessed, db)
      else
        match findUserById (savePayment db { payment with status := PaymentStatus.succeeded }) uid with
        | none =>
          (ConfirmResult.serverError,
            savePayment db { payment with status := PaymentStatus.succeeded })
        | some user =>
          (ConfirmResult.ok payment.tokens (user.tokens + payment.tokens),
            appendToken
              (saveUser (savePayment db { payment with status := PaymentStatus.succeeded })
                { user with tokens := user.tokens + payment.tokens })
              (mkConfirmEntry uid { payment with status := PaymentStatus.succeeded }))

/-! ## `POST /api/webhooks/stripe` (webhook route, src/unnamed/part_001) -/

/-- Fault injection for the awaited database writes inside the webhook
handlers: a `true` flag makes the corresponding `save()` reject, which the
handler's `try/catch` swallows after the earlier writes already persisted. -/
structure Faults where
  paymentSaveFails : Bool
  userSaveFails : Bool
  tokenSaveFails : Bool
deriving DecidableEq

/-- All database writes succeed. -/
def noFaults : Faults :=
  { paymentSaveFails := false, userSaveFails := false, tokenSaveFails := false }

/-- `Payment.findOne({stripePaymentIntentId})` (webhook lookups are not scoped
to a user). -/
def findPaymentByIntent (db : DB) (pid : String) : Option PaymentDoc :=
  db.payments.find? (fun p => p.stripePaymentIntentId == pid)

/-- The `purchase` ledger entry written by the webhook credit path (no
`category`, no `packageId` in this duplicate of the credit logic). -/
def mkWebhookEntry (p : PaymentDoc) : TokenDoc :=
  { user := p.user, type := "purchase", amount := p.tokens,
    description := "Purchased " ++ toString p.tokens ++ " tokens via Stripe",
    category := none, paymentId := some p.id, packageId := none }

/-- `handlePaymentSuccess`: the webhook's own copy of the idempotent credit
logic.  Returns the new store and whether the `catch` branch ran.  A missing
payment or an already-`succeeded` payment returns early without error; a
missing user is skipped silently (`if (user)`) after the payment was already
flipped. -/
def handlePaymentSuccess (f : Faults) (pid : String) (db : DB) : DB × Bool :=
  match findPaymentByIntent db pid with
  | none => (db, false)
  | some payment =>
    if payment.status = PaymentStatus.succeeded then (db, false)
    else if f.paymentSaveFails then (db, true)
    else
      match findUserById (savePayment db { payment with status := PaymentStatus.succeeded })
          payment.user with
      | none => (savePayment db { payment with status := PaymentStatus.succeeded }, false)
      | some user =>
        if f.userSaveFails then
          (savePayment db { payment with status := PaymentStatus.succeeded }, true)
        else if f.tokenSaveFails then
          (saveUser (savePayment db { payment with status := PaymentStatus.succeeded })
            { user with tokens := user.tokens + payment.tokens }, true)
        else
          (appendToken
            (saveUser (savePayment db { payment with status := PaymentStatus.succeeded })
              { user with tokens := user.tokens + payment.tokens })
            (mkWebhookEntry payment), false)

/-- `handlePaymentFailure`: flips a matching payment to `failed`. -/
def handlePaymentFailure (f : Faults) (pid : String) (db : DB) : DB × Bool :=
  match findPaymentByIntent db pid with
  | none => (db, false)
  | some payment =>
    if f.paymentSaveFails then (db, true)
    else (savePayment db { payment with status := PaymentStatus.failed }, false)

/-- `handleDisputeCreated`: flips the payment matching `dispute.payment_intent`
to `disputed`. -/
def handleDisputeCreated (f : Faults) (pid : String) (db : DB) : DB × Bool :=
  match findPaymentByIntent db pid with
  | none => (db, false)
  | some payment =>
    if f.paymentSaveFails then (db, true)
    else (savePayment db { payment with status := PaymentStatus.disputed }, false)

/-- The webhook event kinds the route dispatches on. -/
inductive StripeEvent
  | paymentIntentSucceeded (pid : String)
  | paymentIntentPaymentFailed (pid : String)
  | chargeDisputeCreated (paymentIntent : String)
  | other (eventType : String)
deriving DecidableEq

/-- The two webhook responses: `400 Webhook Error: ...` when
`stripe.webhooks.constructEvent` rejects the signature, otherwise
`res.json({received: true})`. -/
inductive WebhookResponse
  | badRequest  -- 400, signature verification failed
  | received    -- 200 {received: true}
deriving DecidableEq

/-- `router.post('/stripe')`.  `sigValid` is the outcome of verifying the
`stripe-signature` header against the shared `STRIPE_WEBHOOK_SECRET`.
Returns the response, the new store, and whether a handler caught an
internal error. -/
def stripeWebhook (f : Faults) (sigValid : Bool) (event : StripeEvent) (db : DB) :
    WebhookResponse × DB × Bool :=
  if ¬ sigValid then (WebhookResponse.badRequest, db, false)
  else
    match event with
    | StripeEvent.paymentIntentSucceeded pid =>
      (WebhookResponse.received, handlePaymentSuccess f pid db)
    | StripeEvent.paymentIntentPaymentFailed pid =>
      (WebhookResponse.received, handlePaymentFailure f pid db)
    | StripeEvent.chargeDisputeCreated pid =>
      (WebhookResponse.received, handleDisputeCreated f pid db)
    | StripeEvent.other _ => (WebhookResponse.received, db, false)

/-! ## Mock provider pricing (src/backend/services/aiProviders/mockProvider.js) -/

/-- The option bag fields `calculateTokenCost` reads. -/
structure GenOptions where
  size : Option String
  style : Option String
deriving DecidableEq

/-- `getPricing().sizeMultipliers` of the mock provider
(`'512x512': 1, '1024x1024': 1.6`); `none` models an absent key. -/
def mockSizeMultiplier (s : String) : Option ℚ :=
  if s = "512x512" then some 1
  else if s = "1024x1024" then some (8/5)
  else none

/-- `getPricing().styleMultipliers` of the mock provider
(`realistic 1, artistic 1.4, cartoon 1.2, anime 1.3`). -/
def mockStyleMultiplier (s : String) : Option ℚ :=
  if s = "realistic" then some 1
  else if s = "artistic" then some (7/5)
  else if s = "cartoon" then some (6/5)
  else if s = "anime" then some (13/10)
  else none

/-- `MockAIProvider.calculateTokenCost`: start from `baseCost 5`, multiply by
the size multiplier and the style multiplier when the option is present and
its key is in the table (`options.size && pricing.sizeMultipliers[options.size]`),
then `Math.round`. -/
def calculateTokenCost (options : GenOptions) : ℤ :=
  let base : ℚ := 5
  let afterSize :=
    match options.size with
    | some s =>
      match mockSizeMultiplier s with
      | some m => base * m
      | none => base
    | none => base
  let afterStyle :=
    match options.style with
    | some s =>
      match mockStyleMultiplier s with
      | some m => afterSize * m
      | none => afterSize
    | none => afterSize
  jsRound afterStyle

/-! ## Provider manager (src/backend/services/aiProviderManager.js) -/

/-- The provider classes the manager can register (mock always; openai when
its dependency loads). -/
inductive ProviderClass
  | mockClass
  | openaiClass
deriving DecidableEq

/-- A provider instance: `new ProviderClass()` starts uninitialized; a
successful `initialize` flips the flag. -/
structure ProviderInstance where
  cls : ProviderClass
  initialized : Bool
deriving DecidableEq

/-- `new ProviderClass()`. -/
def newInstance (c : ProviderClass) : ProviderInstance :=
  { cls := c, initialized := false }

/-- The manager configuration fields that decide initialization success. -/
structure ManagerConfig where
  openaiApiKey : Option String
deriving DecidableEq

/-- Manager state: the name → class registry, the single mutable
`currentProvider` pointer, and the configuration. -/
structure Manager where
  providers : List (String × ProviderClass)
  currentProvider : Option ProviderInstance
  config : ManagerConfig
deriving DecidableEq

/-- `provider.initialize(config)`: the mock provider always succeeds; the
OpenAI provider throws `'OpenAI API key is required'` when the configured key
is falsy (absent or empty). -/
def initializeInstance (inst : ProviderInstance) (apiKey : Option String) :
    Except String ProviderInstance :=
  match inst.cls with
  | ProviderClass.mockClass => Except.ok { inst with initialized := true }
  | ProviderClass.openaiClass =>
    match apiKey with
    | none => Except.error "OpenAI API key is required"
    | some k =>
      if k = "" then Except.error "OpenAI API key is required"
      else Except.ok { inst with initialized := true }

/-- `getProviderConfig(providerName).apiKey`: only the openai branch carries
the API key relevant to initialization. -/
def providerApiKey (m : Manager) (providerName : String) : Option String :=
  if providerName = "openai" then m.config.openaiApiKey else none

/-- `setProvider(providerName)`: throws when the name is not registered;
otherwise assigns `this.currentProvider = new ProviderClass()` FIRST and only
then awaits `initialize`, so an initialization failure leaves the pointer on
the fresh uninitialized instance. -/
def setProvider (m : Manager) (providerName : String) : Except String Unit × Manager :=
  match m.providers.find? (fun p => p.1 == providerName) with
  | none => (Except.error "Provider not found", m)
  | some nc =>
    let inst0 := newInstance nc.2
    let m1 := { m with currentProvider := some inst0 }
    match initializeInstance inst0 (providerApiKey m providerName) with
    | Except.error e => (Except.error e, m1)
    | Except.ok inst => (Except.ok (), { m1 with currentProvider := some inst })

/-- The status object `getStatus` resolves with; neither provider's
`getStatus` ever throws (the OpenAI one catches its API error itself).
`apiOk` stands for the outcome of the OpenAI connectivity probe. -/
structure ProviderStatus where
  statusText : String
deriving DecidableEq

/-- `provider.getStatus()`. -/
def getStatusOf (inst : ProviderInstance) (apiOk : Bool) : ProviderStatus :=
  match inst.cls with
  | ProviderClass.mockClass => { statusText := "operational" }
  | ProviderClass.openaiClass =>
    if ¬ inst.initialized then { statusText := "not_initialized" }
    else if apiOk then { statusText := "operational" }
    else { statusText := "error" }

/-- `getProviderStatus()` via `getCurrentProvider()`, which throws when no
provider is set. -/
def getProviderStatus (m : Manager) (apiOk : Bool) : Except String ProviderStatus :=
  match m.currentProvider with
  | none => Except.error "No AI provider is currently set"
  | some inst => Except.ok (getStatusOf inst apiOk)

inductive TestResult
  | success (provider : String) (status : ProviderStatus)
  | failure (provider : String) (message : String)
deriving DecidableEq

/-- Whether `testProvider` reported success. -/
def TestResult.isSuccess : TestResult → Bool
  | TestResult.success _ _ => true
  | TestResult.failure _ _ => false

/-- `testProvider(providerName)`: stash `originalProvider`, `setProvider`,
probe the status, restore the stash only when it was non-null, and return
success; any throw is caught and returned as a failure result — without
restoring the pointer. -/
def testProvider (m : Manager) (providerName : String) (apiOk : Bool) :
    TestResult × Manager :=
  match setProvider m providerName with
  | (Except.error e, m1) => (TestResult.failure providerName e, m1)
  | (Except.ok _, m1) =>
    match getProviderStatus m1 apiOk with
    | Except.error e => (TestResult.failure providerName e, m1)
    | Except.ok status =>
      (TestResult.success providerName status,
        if m.currentProvider.isSome then { m1 with currentProvider := m.currentProvider }
        else m1)

/-! ## Concrete fixtures used to instantiate the theorems -/

/-- A user holding 10 tokens. -/
def userFix : UserDoc := { id := 1, tokens := 10 }

/-- A pending payment of 50 tokens correlated to intent `pi_1`. -/
def payPendingFix : PaymentDoc :=
  { id := 7, user := 1, packageId := some 2, stripePaymentIntentId := "pi_1",
    amount := 999, tokens := 50, status := PaymentStatus.pending }

/-- The same payment after a successful confirmation. -/
def paySucceededFix : PaymentDoc := { payPendingFix with status := PaymentStatus.succeeded }

/-- Store with the pending payment. -/
def dbPendingFix : DB := { users := [userFix], payments := [payPendingFix], tokens := [], packages := [] }

/-- Store in which intent `pi_1` was already processed. -/
def dbDoneFix : DB := { users := [userFix], payments := [paySucceededFix], tokens := [], packages := [] }

/-- A fresh user: zero balance, empty ledger. -/
def dbFreshFix : DB := { users := [{ id := 1, tokens := 0 }], payments := [], tokens := [], packages := [] }

/-- A sequence of sequential ledger requests (the last one must be refused). -/
def opsFix : List TokenOp :=
  [TokenOp.add 5 "signup bonus", TokenOp.spend 3 "image", TokenOp.spend 9 "too much"]

/-- A user holding only 3 tokens. -/
def dbPoorFix : DB := { users := [{ id := 1, tokens := 3 }], payments := [], tokens := [], packages := [] }

/-- The spec's example package `{tokens:50, bonusTokens:0, price:9.99,
discountPercentage:0}` with `maxPurchases = 1`. -/
def pkgFix : TokenPackageDoc :=
  { id := 2, tokens := 50, bonusTokens := 0, price := 999/100, discountPercentage := 0,
    currency := "USD", isActive := true, maxPurchases := some 1, expiresAt := none }

/-- An inactive variant of the package. -/
def pkgInactiveFix : TokenPackageDoc := { pkgFix with isActive := false }

/-- An expired variant of the package. -/
def pkgExpiredFix : TokenPackageDoc := { pkgFix with expiresAt := some 100 }

/-- Store carrying the active package and no payments. -/
def dbPkgFix : DB := { users := [userFix], payments := [], tokens := [], packages := [pkgFix] }

/-- Store carrying the inactive package. -/
def dbPkgInactiveFix : DB :=
  { users := [userFix], payments := [], tokens := [], packages := [pkgInactiveFix] }

/-- Store carrying the expired package. -/
def dbPkgExpiredFix : DB :=
  { users := [userFix], payments := [], tokens := [], packages := [pkgExpiredFix] }

/-- Store in which user 1 already owns one succeeded purchase of the package. -/
def dbPkgBoughtFix : DB :=
  { users := [userFix],
    payments := [{ id := 3, user := 1, packageId := some 2, stripePaymentIntentId := "pi_0",
                   amount := 999, tokens := 50, status := PaymentStatus.succeeded }],
    tokens := [], packages := [pkgFix] }

/-- Fault profile: only the ledger-entry insert rejects. -/
def tokenSaveFaultFix : Faults :=
  { paymentSaveFails := false, userSaveFails := false, tokenSaveFails := true }

/-- An initialized mock provider instance. -/
def mockInstFix : ProviderInstance := { cls := ProviderClass.mockClass, initialized := true }

/-- Manager state: mock and openai registered, mock current, no OpenAI key
configured. -/
def mgrFix : Manager :=
  { providers := [("mock", ProviderClass.mockClass), ("openai", ProviderClass.openaiClass)],
    currentProvider := some mockInstFix,
    config := { openaiApiKey := none } }

/-- Same manager before any provider was made current. -/
def mgrNoneFix : Manager := { mgrFix with currentProvider := none }

/-! ## Helper lemmas about the store operations -/

/-- Replacing the stored document that shares the saved document's id: a query
that found the old document and accepts the new one now finds the new one. -/
theorem find?_map_update {α : Type} (idf : α → Nat) (test : α → Bool)
    (l : List α) (p p' : α) (hfound : l.find? test = some p)
    (hid : idf p' = idf p) (htest : test p' = true) :
    (l.map (fun q => if idf q == idf p' then p' else q)).find? test = some p' := by
  induction l with
  | nil => simp at hfound
  | cons v vs ih =>
    by_cases hv : test v = true
    · rw [List.find?_cons_of_pos _ hv] at hfound
      injection hfound with hvp
      subst hvp
      have hbeq : (idf v == idf p') = true := by rw [hid]; exact beq_self_eq_true _
      simp only [List.map_cons, hbeq, if_true]
      exact List.find?_cons_of_pos _ htest
    · rw [List.find?_cons_of_neg _ (by simpa using hv)] at hfound
      simp only [List.map_cons]
      by_cases hvid : (idf v == idf p') = true
      · simp only [hvid, if_true]
        exact List.find?_cons_of_pos _ htest
      · simp only [hvid, if_false]
        rw [List.find?_cons_of_neg _ (by simpa using hv)]
        exact ih hfound

/-- `saveUser` after an in-place mutation of a found user: the query now reads
back the mutated document. -/
theorem findUserById_saveUser (db : DB) (u u' : UserDoc) (uid : Nat)
    (hfound : findUserById db uid = some u) (hid : u'.id = u.id) :
    findUserById (saveUser db u') uid = some u' := by
  have htest : (u'.id == uid) = true := by
    have h2 := List.find?_some (show db.users.find? (fun v => v.id == uid) = some u from hfound)
    rw [hid]
    exact h2
  exact find?_map_update UserDoc.id (fun v => v.id == uid) db.users u u' hfound hid htest

/-- `savePayment` after a status flip of a found payment: the user-scoped
query reads back the flipped document. -/
theorem findPaymentForUser_savePayment (db : DB) (p p' : PaymentDoc) (pid : String)
    (uid : Nat) (hfound : findPaymentForUser db pid uid = some p) (hid : p'.id = p.id)
    (hpi : p'.stripePaymentIntentId = p.stripePaymentIntentId) (hus : p'.user = p.user) :
    findPaymentForUser (savePayment db p') pid uid = some p' := by
  have htest : (p'.stripePaymentIntentId == pid && p'.user == uid) = true := by
    have h2 := List.find?_some
      (show db.payments.find? (fun q => q.stripePaymentIntentId == pid && q.user == uid)
            = some p from hfound)
    rw [hpi, hus]
    exact h2
  exact find?_map_update PaymentDoc.id
    (fun q => q.stripePaymentIntentId == pid && q.user == uid) db.payments p p'
    hfound hid htest

/-- `savePayment` after a status flip: the intent-scoped query reads back the
flipped document. -/
theorem findPaymentByIntent_savePayment (db : DB) (p p' : PaymentDoc) (pid : String)
    (hfound : findPaymentByIntent db pid = some p) (hid : p'.id = p.id)
    (hpi : p'.stripePaymentIntentId = p.stripePaymentIntentId) :
    findPaymentByIntent (savePayment db p') pid = some p' := by
  have htest : (p'.stripePaymentIntentId == pid) = true := by
    have h2 := List.find?_some
      (show db.payments.find? (fun q => q.stripePaymentIntentId == pid) = some p from hfound)
    rw [hpi]
    exact h2
  exact find?_map_update PaymentDoc.id
    (fun q => q.stripePaymentIntentId == pid) db.payments p p' hfound hid htest

/-- Appending a ledger entry adds its amount to the owner's ledger sum. -/
theorem ledgerSum_appendToken (db : DB) (t : TokenDoc) (uid : Nat) :
    ledgerSum (appendToken db t) uid
      = ledgerSum db uid + (if t.user == uid then t.amount else 0) := by
  by_cases h : (t.user == uid) = true
  · simp [ledgerSum, appendToken, List.filter_append, h]
  · simp [ledgerSum, appendToken, List.filter_append, h]

/-- Writing the user's cached balance does not touch the ledger. -/
theorem ledgerSum_saveUser (db : DB) (u : UserDoc) (uid : Nat) :
    ledgerSum (saveUser db u) uid = ledgerSum db uid := rfl

/-- A ledger insert does not touch any user document. -/
theorem findUserById_appendToken (db : DB) (t : TokenDoc) (uid : Nat) :
    findUserById (appendToken db t) uid = findUserById db uid := rfl

/-- The combined write performed by every successful ledger operation
(balance cache update plus appended entry) preserves the balance/ledger
reconciliation. -/
theorem balanceMatchesLedger_write (db : DB) (uid : Nat) (user : UserDoc)
    (e : TokenDoc) (nt : Int) (hu : findUserById db uid = some user)
    (hnt : nt = user.tokens + e.amount) (heu : e.user = uid)
    (h : balanceMatchesLedger db uid = true) :
    balanceMatchesLedger (saveUser (appendToken db e) { user with tokens := nt }) uid
      = true := by
  have hfound : findUserById (appendToken db e) uid = some user := hu
  have hu' := findUserById_saveUser (appendToken db e) user { user with tokens := nt }
    uid hfound rfl
  unfold balanceMatchesLedger at h ⊢
  rw [hu] at h
  rw [hu', ledgerSum_saveUser, ledgerSum_appendToken]
  have hb : user.tokens = ledgerSum db uid := beq_iff_eq.mp h
  have htu : (e.user == uid) = true := by rw [heu]; exact beq_self_eq_true _
  simp [htu, hnt, hb]

/-- One `POST /tokens/spend` request preserves the balance/ledger
reconciliation, whether it succeeds or is rejected. -/
theorem spendTokens_preserves_ledger (db : DB) (uid : Nat) (amount : Int)
    (d : String) (h : balanceMatchesLedger db uid = true) :
    balanceMatchesLedger (spendTokens db uid amount d).2 uid = true := by
  unfold spendTokens
  split
  · exact h
  split
  · exact h
  split
  · exact h
  next user hu =>
    split
    · exact h
    · exact balanceMatchesLedger_write db uid user (mkSpendEntry uid amount d)
        (user.tokens - amount) hu (by simp [mkSpendEntry]; ring) rfl h

/-- One `POST /tokens/add` request preserves the balance/ledger
reconciliation. -/
theorem addTokens_preserves_ledger (db : DB) (uid : Nat) (amount : Int)
    (d : String) (h : balanceMatchesLedger db uid = true) :
    balanceMatchesLedger (addTokens db uid amount d).2 uid = true := by
  unfold addTokens
  split
  · exact h
  split
  · exact h
  split
  · exact h
  next user hu =>
    exact balanceMatchesLedger_write db uid user (mkAddEntry uid amount d)
      (user.tokens + amount) hu (by simp [mkAddEntry]) rfl h

/-! ## Claim theorems -/

/-- C2: starting from any state in which the user's balance equals the sum of
that user's ledger amounts (in particular a fresh user: `tokens = 0`, empty
ledger), any sequence of `POST /tokens/spend` / `POST /tokens/add` requests
executed with no concurrent interleaving leaves `User.tokens` equal to the sum
of that user's `Token` ledger amounts. -/
theorem claim_spend_add_ledger_invariant (db : DB) (uid : Nat) (ops : List TokenOp)
    (h : balanceMatchesLedger db uid = true) :
    balanceMatchesLedger (runOps db uid ops) uid = true := by
  induction ops generalizing db with
  | nil => exact h
  | cons op rest ih =>
    apply ih
    cases op with
    | spend a d => exact spendTokens_preserves_ledger db uid a d h
    | add a d => exact addTokens_preserves_ledger db uid a d h

/-- C2 witness: a fresh user satisfies the reconciliation, and still does after
a concrete add/spend sequence (whose last request is refused). -/
theorem claim_spend_add_ledger_invariant_witness :
    balanceMatchesLedger dbFreshFix 1 = true ∧
    balanceMatchesLedger (runOps dbFreshFix 1 opsFix) 1 = true :=
  ⟨by decide, claim_spend_add_ledger_invariant dbFreshFix 1 opsFix (by decide)⟩

/-- C3: a spend request whose amount strictly exceeds the user's current
balance mutates nothing (the store is returned unchanged, so no ledger entry
and no balance change) and never reports success; when the request passes the
preceding field validations (`amount > 0`, non-empty description) the response
is exactly the 400 `Insufficient tokens` rejection. -/
theorem claim_spend_insufficient_rejected (db : DB) (uid : Nat) (amount : Int)
    (d : String) (u : UserDoc) (hu : findUserById db uid = some u)
    (hlt : u.tokens < amount) :
    (spendTokens db uid amount d).2 = db ∧
    (∀ nb, (spendTokens db uid amount d).1 ≠ SpendResult.ok nb) ∧
    (0 < amount → d ≠ "" →
      (spendTokens db uid amount d).1 = SpendResult.insufficientTokens) := by
  unfold spendTokens
  by_cases h0 : amount ≤ 0
  · rw [if_pos h0]
    exact ⟨rfl, fun nb => by simp, fun hpos _ => absurd h0 (by omega)⟩
  rw [if_neg h0]
  by_cases hd : d = ""
  · rw [if_pos hd]
    exact ⟨rfl, fun nb => by simp, fun _ hne => absurd hd hne⟩
  rw [if_neg hd]
  simp only [hu]
  rw [if_pos hlt]
  exact ⟨rfl, fun nb => by simp, fun _ _ => rfl⟩

/-- C3 witness: user 1 holds 3 tokens; spending 5 is refused as
`Insufficient tokens` and the store is unchanged. -/
theorem claim_spend_insufficient_rejected_witness :
    (spendTokens dbPoorFix 1 5 "image").1 = SpendResult.insufficientTokens ∧
    (spendTokens dbPoorFix 1 5 "image").2 = dbPoorFix :=
  ⟨(claim_spend_insufficient_rejected dbPoorFix 1 5 "image" { id := 1, tokens := 3 }
      (by decide) (by decide)).2.2 (by decide) (by decide),
   (claim_spend_insufficient_rejected dbPoorFix 1 5 "image" { id := 1, tokens := 3 }
      (by decide) (by decide)).1⟩

/-- C1: confirming a payment-intent credits exactly once.  If the local
payment is already `succeeded`, `POST /payments/confirm` answers the 400
`Payment already processed` error and returns the store untouched (balance,
payment, ledger all unchanged).  If it is not yet `succeeded` (and the user
document exists), the first confirmation reports success, flips the payment to
`succeeded`, raises `User.tokens` by the payment's token count, appends
exactly one `purchase` ledger entry — and an immediately repeated confirmation
is then refused with `Payment already processed` and changes nothing. -/
theorem claim_confirm_idempotent (db : DB) (uid : Nat) (pid : String) (p : PaymentDoc)
    (hp : findPaymentForUser db pid uid = some p) :
    (p.status = PaymentStatus.succeeded →
      confirmPayment true "succeeded" db uid pid = (ConfirmResult.alreadyProcessed, db)) ∧
    (p.status ≠ PaymentStatus.succeeded →
      ∀ u, findUserById db uid = some u →
        (confirmPayment true "succeeded" db uid pid).1
            = ConfirmResult.ok p.tokens (u.tokens + p.tokens) ∧
        ((confirmPayment true "succeeded" db uid pid).2).tokens
            = db.tokens ++ [mkConfirmEntry uid { p with status := PaymentStatus.succeeded }] ∧
        findUserById (confirmPayment true "succeeded" db uid pid).2 uid
            = some { u with tokens := u.tokens + p.tokens } ∧
        findPaymentForUser (confirmPayment true "succeeded" db uid pid).2 pid uid
            = some { p with status := PaymentStatus.succeeded } ∧
        confirmPayment true "succeeded" (confirmPayment true "succeeded" db uid pid).2 uid pid
            = (ConfirmResult.alreadyProcessed,
               (confirmPayment true "succeeded" db uid pid).2)) := by
  constructor
  · intro hs
    unfold confirmPayment
    rw [if_neg (by simp), if_neg (by simp)]
    simp only [hp]
    rw [if_pos hs]
  · intro hns u hu
    have hu1 : findUserById (savePayment db { p with status := PaymentStatus.succeeded }) uid
        = some u := hu
    have hrun : confirmPayment true "succeeded" db uid pid
        = (ConfirmResult.ok p.tokens (u.tokens + p.tokens),
           appendToken
             (saveUser (savePayment db { p with status := PaymentStatus.succeeded })
               { u with tokens := u.tokens + p.tokens })
             (mkConfirmEntry uid { p with status := PaymentStatus.succeeded })) := by
      unfold confirmPayment
      rw [if_neg (by simp), if_neg (by simp)]
      simp only [hp]
      rw [if_neg hns]
      simp only [hu1]
    rw [hrun]
    refine ⟨rfl, rfl, ?_, ?_, ?_⟩
    · exact findUserById_saveUser (savePayment db { p with status := PaymentStatus.succeeded })
        u { u with tokens := u.tokens + p.tokens } uid hu1 rfl
    · exact findPaymentForUser_savePayment db p { p with status := PaymentStatus.succeeded }
        pid uid hp rfl rfl rfl
    · have hp2 : findPaymentForUser
          (appendToken
            (saveUser (savePayment db { p with status := PaymentStatus.succeeded })
              { u with tokens := u.tokens + p.tokens })
            (mkConfirmEntry uid { p with status := PaymentStatus.succeeded })) pid uid
          = some { p with status := PaymentStatus.succeeded } :=
        findPaymentForUser_savePayment db p { p with status := PaymentStatus.succeeded }
          pid uid hp rfl rfl rfl
      unfold confirmPayment
      rw [if_neg (by simp), if_neg (by simp)]
      simp only [hp2]
      rw [if_pos trivial]

/-- C1 witness: on a store whose payment is already `succeeded` the
confirmation is refused unchanged; on the pending store the first confirmation
reports the 50-token credit. -/
theorem claim_confirm_idempotent_witness :
    confirmPayment true "succeeded" dbDoneFix 1 "pi_1"
        = (ConfirmResult.alreadyProcessed, dbDoneFix) ∧
    (confirmPayment true "succeeded" dbPendingFix 1 "pi_1").1
        = ConfirmResult.ok payPendingFix.tokens (userFix.tokens + payPendingFix.tokens) :=
  ⟨(claim_confirm_idempotent dbDoneFix 1 "pi_1" paySucceededFix (by decide)).1 (by decide),
   ((claim_confirm_idempotent dbPendingFix 1 "pi_1" payPendingFix (by decide)).2
      (by decide) userFix (by decide)).1⟩

/-- C4: a webhook request whose signature fails verification is answered with
the 400 error and the store is returned untouched (no document written),
whatever the event and whatever faults the writes would have had; a validly
signed request is answered `{received:true}`. -/
theorem claim_webhook_signature (f : Faults) (event : StripeEvent) (db : DB) :
    stripeWebhook f false event db = (WebhookResponse.badRequest, db, false) ∧
    (stripeWebhook f true event db).1 = WebhookResponse.received :=
  ⟨rfl, by cases event <;> rfl⟩

/-- C6: on a `payment_intent.payment_failed` event the matching payment is
flipped to `failed`, on a `charge.dispute.created` event to `disputed`; in
both cases the user documents and the token ledger are untouched (no entry,
no balance change, no reversal) and the store differs only by that one
payment's status. -/
theorem claim_failure_dispute_status_only (db : DB) (pid : String) (p : PaymentDoc)
    (hp : findPaymentByIntent db pid = some p) :
    stripeWebhook noFaults true (StripeEvent.paymentIntentPaymentFailed pid) db
        = (WebhookResponse.received,
           savePayment db { p with status := PaymentStatus.failed }, false) ∧
    (savePayment db { p with status := PaymentStatus.failed }).users = db.users ∧
    (savePayment db { p with status := PaymentStatus.failed }).tokens = db.tokens ∧
    findPaymentByIntent (savePayment db { p with status := PaymentStatus.failed }) pid
        = some { p with status := PaymentStatus.failed } ∧
    stripeWebhook noFaults true (StripeEvent.chargeDisputeCreated pid) db
        = (WebhookResponse.received,
           savePayment db { p with status := PaymentStatus.disputed }, false) ∧
    (savePayment db { p with status := PaymentStatus.disputed }).users = db.users ∧
    (savePayment db { p with status := PaymentStatus.disputed }).tokens = db.tokens ∧
    findPaymentByIntent (savePayment db { p with status := PaymentStatus.disputed }) pid
        = some { p with status := PaymentStatus.disputed } := by
  have hf : handlePaymentFailure noFaults pid db
      = (savePayment db { p with status := PaymentStatus.failed }, false) := by
    unfold handlePaymentFailure
    simp only [hp]
    rw [if_neg (by simp [noFaults])]
  have hd : handleDisputeCreated noFaults pid db
      = (savePayment db { p with status := PaymentStatus.disputed }, false) := by
    unfold handleDisputeCreated
    simp only [hp]
    rw [if_neg (by simp [noFaults])]
  refine ⟨?_, rfl, rfl, ?_, ?_, rfl, rfl, ?_⟩
  · show (WebhookResponse.received, handlePaymentFailure noFaults pid db)
        = (WebhookResponse.received,
           savePayment db { p with status := PaymentStatus.failed }, false)
    rw [hf]
  · exact findPaymentByIntent_savePayment db p { p with status := PaymentStatus.failed }
      pid hp rfl rfl
  · show (WebhookResponse.received, handleDisputeCreated noFaults pid db)
        = (WebhookResponse.received,
           savePayment db { p with status := PaymentStatus.disputed }, false)
    rw [hd]
  · exact findPaymentByIntent_savePayment db p { p with status := PaymentStatus.disputed }
      pid hp rfl rfl

/-- C6 witness: on the store holding the pending payment for `pi_1`, a
payment-failed event flips exactly that payment to `failed`. -/
theorem claim_failure_dispute_status_only_witness :
    stripeWebhook noFaults true (StripeEvent.paymentIntentPaymentFailed "pi_1") dbPendingFix
      = (WebhookResponse.received,
         savePayment dbPendingFix { payPendingFix with status := PaymentStatus.failed },
         false) :=
  (claim_failure_dispute_status_only dbPendingFix "pi_1" payPendingFix (by decide)).1

/-- C10 counterexample: the claim asserts that an event whose internal
handling throws is swallowed "with no state change".  With the ledger-entry
insert rejecting, a validly signed payment-succeeded event is caught (the
error flag is set), the endpoint still answers `{received:true}` — but the
store HAS changed: the payment was flipped and the balance credited without a
ledger entry. -/
theorem claim_webhook_swallow_counterexample :
    ((stripeWebhook tokenSaveFaultFix true
        (StripeEvent.paymentIntentSucceeded "pi_1") dbPendingFix).2).2 = true ∧
    (stripeWebhook tokenSaveFaultFix true
        (StripeEvent.paymentIntentSucceeded "pi_1") dbPendingFix).1
      = WebhookResponse.received ∧
    ((stripeWebhook tokenSaveFaultFix true
        (StripeEvent.paymentIntentSucceeded "pi_1") dbPendingFix).2).1 ≠ dbPendingFix := by
  decide

/-- C10 (amended): a validly signed event is always answered
`{received:true}` — internal errors and unmatched payment-intent ids are
swallowed and never signalled to the processor — and a payment-succeeded
event whose intent id matches no local Payment record changes no state; but a
write failure inside the handler can leave a partial state change behind the
200 response. -/
theorem claim_webhook_swallow_amended (f : Faults) (event : StripeEvent) (db : DB) :
    (stripeWebhook f true event db).1 = WebhookResponse.received ∧
    (∀ pid, event = StripeEvent.paymentIntentSucceeded pid →
      findPaymentByIntent db pid = none →
      stripeWebhook f true event db = (WebhookResponse.received, db, false)) := by
  constructor
  · cases event <;> rfl
  · intro pid hev hnone
    subst hev
    show (WebhookResponse.received, handlePaymentSuccess f pid db)
        = (WebhookResponse.received, db, false)
    unfold handlePaymentSuccess
    simp only [hnone]

/-- C10 witness: an unmatched intent id is acknowledged and changes nothing. -/
theorem claim_webhook_swallow_amended_witness :
    stripeWebhook noFaults true (StripeEvent.paymentIntentSucceeded "pi_nope") dbPendingFix
      = (WebhookResponse.received, dbPendingFix, false) :=
  (claim_webhook_swallow_amended noFaults
      (StripeEvent.paymentIntentSucceeded "pi_nope") dbPendingFix).2 "pi_nope" rfl (by decide)

/-- C5: with the processor configured, a payment-intent creation request is
refused with the 400 validation result — store unchanged and no processor
call — whenever the package id resolves to nothing, or to an inactive
package, or the package expired, or the user already reached a positive
`maxPurchases` limit with succeeded purchases. -/
theorem claim_create_intent_validation (now : Int) (nid : String) (ndoc : Nat)
    (db : DB) (uid : Nat) (packageId : Nat) :
    (db.packages.find? (fun q => q.id == packageId) = none →
      createPaymentIntent true now nid ndoc db uid packageId
        = (CreateIntentResult.invalidPackage, db, [])) ∧
    (∀ pkg, db.packages.find? (fun q => q.id == packageId) = some pkg →
      pkg.isActive = false →
      createPaymentIntent true now nid ndoc db uid packageId
        = (CreateIntentResult.invalidPackage, db, [])) ∧
    (∀ pkg t, db.packages.find? (fun q => q.id == packageId) = some pkg →
      pkg.isActive = true → pkg.expiresAt = some t → t < now →
      createPaymentIntent true now nid ndoc db uid packageId
        = (CreateIntentResult.packageExpired, db, [])) ∧
    (∀ pkg m, db.packages.find? (fun q => q.id == packageId) = some pkg →
      pkg.isActive = true → (∀ t, pkg.expiresAt = some t → now ≤ t) →
      pkg.maxPurchases = some m → 0 < m →
      m ≤ countSucceededPurchases db uid pkg.id →
      createPaymentIntent true now nid ndoc db uid packageId
        = (CreateIntentResult.purchaseLimitReached, db, [])) := by
  refine ⟨?_, ?_, ?_, ?_⟩
  · intro hnone
    unfold createPaymentIntent
    rw [if_neg (by simp)]
    simp only [hnone]
  · intro pkg hfind hact
    unfold createPaymentIntent
    rw [if_neg (by simp)]
    simp only [hfind]
    rw [if_pos (by simp [hact])]
  · intro pkg t hfind hact hexp hlt
    unfold createPaymentIntent
    rw [if_neg (by simp)]
    simp only [hfind]
    rw [if_neg (by simp [hact])]
    simp only [hexp]
    rw [if_pos (by simp [hlt])]
  · intro pkg m hfind hact hnexp hmax hmpos hcnt
    unfold createPaymentIntent
    rw [if_neg (by simp)]
    simp only [hfind]
    rw [if_neg (by simp [hact])]
    rw [if_neg (by
      cases hE : pkg.expiresAt with
      | none => simp
      | some t =>
        have ht := hnexp t hE
        simp
        omega)]
    rw [if_pos (by
      simp only [hmax, Bool.and_eq_true, bne_iff_ne, decide_eq_true_eq]
      exact ⟨Nat.pos_iff_ne_zero.mp hmpos, hcnt⟩)]

/-- C5 witness: the inactive, the expired, and the limit-reached variants of
the spec's example package are each refused with the matching 400 result, the
store untouched and no processor call. -/
theorem claim_create_intent_validation_witness :
    createPaymentIntent true 200 "pi_9" 9 dbPkgInactiveFix 1 2
        = (CreateIntentResult.invalidPackage, dbPkgInactiveFix, []) ∧
    createPaymentIntent true 200 "pi_9" 9 dbPkgExpiredFix 1 2
        = (CreateIntentResult.packageExpired, dbPkgExpiredFix, []) ∧
    createPaymentIntent true 200 "pi_9" 9 dbPkgBoughtFix 1 2
        = (CreateIntentResult.purchaseLimitReached, dbPkgBoughtFix, []) :=
  ⟨(claim_create_intent_validation 200 "pi_9" 9 dbPkgInactiveFix 1 2).2.1
      pkgInactiveFix rfl (by decide),
   (claim_create_intent_validation 200 "pi_9" 9 dbPkgExpiredFix 1 2).2.2.1
      pkgExpiredFix 100 rfl (by decide) (by decide) (by decide),
   (claim_create_intent_validation 200 "pi_9" 9 dbPkgBoughtFix 1 2).2.2.2
      pkgFix 1 rfl (by decide) (by intro t ht; simp [pkgFix] at ht)
      (by decide) (by decide) (by decide)⟩

/-- C7: on the accepted path the final price is
`price * (1 - discountPercentage / 100)` (the code's `discountPercentage > 0`
branch agrees with this formula for the schema-valid `discountPercentage ≥ 0`),
the amount sent to the processor and stored on the new pending Payment is
`Math.round(finalPrice * 100)`, and the Payment's `tokens` field is
`tokens + bonusTokens`. -/
theorem claim_create_intent_pricing (now : Int) (nid : String) (ndoc : Nat)
    (db : DB) (uid : Nat) (packageId : Nat) (pkg : TokenPackageDoc)
    (hfind : db.packages.find? (fun q => q.id == packageId) = some pkg)
    (hact : pkg.isActive = true)
    (hdisc : 0 ≤ pkg.discountPercentage)
    (hnexp : ∀ t, pkg.expiresAt = some t → now ≤ t)
    (hnolim : ∀ m, pkg.maxPurchases = some m →
      m = 0 ∨ countSucceededPurchases db uid pkg.id < m) :
    createPaymentIntent true now nid ndoc db uid packageId
      = (CreateIntentResult.ok ndoc,
         { db with payments := db.payments ++
            [{ id := ndoc, user := uid, packageId := some pkg.id,
               stripePaymentIntentId := nid,
               amount := jsRound (pkg.price * (1 - pkg.discountPercentage / 100) * 100),
               tokens := pkg.tokens + pkg.bonusTokens,
               status := PaymentStatus.pending }] },
         [{ amount := jsRound (pkg.price * (1 - pkg.discountPercentage / 100) * 100),
            currency := pkg.currency.toLower }]) := by
  have hprice : (if pkg.discountPercentage > 0 then
        pkg.price * (1 - pkg.discountPercentage / 100) else pkg.price)
      = pkg.price * (1 - pkg.discountPercentage / 100) := by
    by_cases hd : pkg.discountPercentage > 0
    · rw [if_pos hd]
    · have h0 : pkg.discountPercentage = 0 := le_antisymm (not_lt.mp hd) hdisc
      rw [if_neg hd, h0]
      ring
  unfold createPaymentIntent
  rw [if_neg (by simp)]
  simp only [hfind]
  rw [if_neg (by simp [hact])]
  rw [if_neg (by
    cases hE : pkg.expiresAt with
    | none => simp
    | some t =>
      have ht := hnexp t hE
      simp
      omega)]
  rw [if_neg (by
    cases hM : pkg.maxPurchases with
    | none => simp
    | some m =>
      have hm := hnolim m hM
      simp only [Bool.and_eq_true, bne_iff_ne, decide_eq_true_eq, not_and]
      intro hne
      rcases hm with h0 | hlt
      · exact absurd h0 hne
      · omega)]
  rw [hprice]

/-- C7 witness: the spec's example package (9.99 USD, no discount, 50 + 0
tokens) yields exactly one pending Payment and one processor call at the
computed cent amount and token total. -/
theorem claim_create_intent_pricing_witness :
    createPaymentIntent true 0 "pi_9" 9 dbPkgFix 1 2
      = (CreateIntentResult.ok 9,
         { dbPkgFix with payments := dbPkgFix.payments ++
            [{ id := 9, user := 1, packageId := some pkgFix.id,
               stripePaymentIntentId := "pi_9",
               amount := jsRound (pkgFix.price * (1 - pkgFix.discountPercentage / 100) * 100),
               tokens := pkgFix.tokens + pkgFix.bonusTokens,
               status := PaymentStatus.pending }] },
         [{ amount := jsRound (pkgFix.price * (1 - pkgFix.discountPercentage / 100) * 100),
            currency := pkgFix.currency.toLower }]) :=
  claim_create_intent_pricing 0 "pi_9" 9 dbPkgFix 1 2 pkgFix rfl rfl
    (by norm_num [pkgFix])
    (by intro t ht; simp [pkgFix] at ht)
    (by
      intro m hm
      simp [pkgFix] at hm
      subst hm
      right
      decide)

/-- C8: the mock provider's `calculateTokenCost` is a pure function of the
option bag: on `{size: "1024x1024", style: "artistic"}` it returns
`Math.round(5 * 1.6 * 1.4) = 11`, and equal option bags always give equal
costs. -/
theorem claim_mock_token_cost :
    calculateTokenCost { size := some "1024x1024", style := some "artistic" }
        = jsRound (5 * (8/5) * (7/5)) ∧
    calculateTokenCost { size := some "1024x1024", style := some "artistic" } = 11 ∧
    ∀ o1 o2 : GenOptions, o1 = o2 →
      calculateTokenCost o1 = calculateTokenCost o2 := by
  refine ⟨?_, ?_, ?_⟩
  · simp [calculateTokenCost, mockSizeMultiplier, mockStyleMultiplier]
  · have h1 : calculateTokenCost { size := some "1024x1024", style := some "artistic" }
        = jsRound (5 * (8/5) * (7/5)) := by
      simp [calculateTokenCost, mockSizeMultiplier, mockStyleMultiplier]
    rw [h1]
    unfold jsRound
    rw [Int.floor_eq_iff]
    constructor <;> norm_num
  · intro o1 o2 h
    rw [h]

/-- C8 witness: applying determinism at one concrete option bag. -/
theorem claim_mock_token_cost_witness :
    calculateTokenCost { size := some "512x512", style := some "anime" }
      = calculateTokenCost { size := some "512x512", style := some "anime" } :=
  claim_mock_token_cost.2.2 { size := some "512x512", style := some "anime" }
    { size := some "512x512", style := some "anime" } rfl

/-- C9 counterexample: the pointer is NOT always restored.  (1) With mock
current and no OpenAI key configured, `testProvider("openai")` reports
failure and leaves the fresh uninitialized openai instance current
(`setProvider` reassigns the pointer before `initialize` throws, and the
catch path never restores).  (2) With no provider current, a successful
`testProvider("mock")` skips the falsy-guarded restore and leaves the tested
instance current. -/
theorem claim_test_provider_counterexample :
    (testProvider mgrFix "openai" true).1
        = TestResult.failure "openai" "OpenAI API key is required" ∧
    (testProvider mgrFix "openai" true).2.currentProvider ≠ mgrFix.currentProvider ∧
    (testProvider mgrNoneFix "mock" true).1.isSuccess = true ∧
    (testProvider mgrNoneFix "mock" true).2.currentProvider
        ≠ mgrNoneFix.currentProvider := by
  decide

/-- C9 (amended): when a provider was current before the call and
`testProvider` reports success, the current-provider pointer is restored to
the prior provider; a failing test, or a test started with no current
provider, can leave the pointer changed. -/
theorem claim_test_provider_restore_amended (m : Manager) (name : String)
    (apiOk : Bool) (hsome : m.currentProvider.isSome = true)
    (hsucc : (testProvider m name apiOk).1.isSuccess = true) :
    (testProvider m name apiOk).2.currentProvider = m.currentProvider := by
  unfold testProvider at hsucc ⊢
  cases hsp : setProvider m name with
  | mk r m1 =>
    rw [hsp] at hsucc
    cases r with
    | error e => simp [TestResult.isSuccess] at hsucc
    | ok u =>
      simp only [] at hsucc ⊢
      cases hgs : getProviderStatus m1 apiOk with
      | error e =>
        rw [hgs] at hsucc
        simp [TestResult.isSuccess] at hsucc
      | ok st => simp [hsome]

/-- C9 witness: a successful test of `mock` while `mock` is current leaves the
pointer on the original instance. -/
theorem claim_test_provider_restore_amended_witness :
    (testProvider mgrFix "mock" true).2.currentProvider = mgrFix.currentProvider :=
  claim_test_provider_restore_amended mgrFix "mock" true (by decide) (by decide)

end Aimage
